import Mathlib

/-!
Verification development for the wx-msg-api repository: a shallow embedding
of its data model (robot configs, user login sessions, groups), the
persistence gateway (upsert/delete/query operations over in-memory row
lists), the external-API client normalization, the three reconciliation
scheduler ticks, the round-robin message-bot selection strategy, and the
outbound send checks, together with theorems about them.

Go `uint` fields are modelled as `Nat`, Go `int` fields as `Int`, and
`time.Time` fields as an abstract `Nat` timestamp threaded as a `now`
parameter where the code writes timestamps (GORM `autoCreateTime` /
`autoUpdateTime`).  Database tables are lists of rows; GORM auto-increment
primary keys are modelled by `fresh…Id` (one more than the largest id in
the table).  External HTTP calls are modelled by oracle functions from
`(address, token)` to an optional wire response, `none` standing for a
transport failure (timeout / connection refused / malformed body); storage
failures are modelled by boolean failure oracles.
-/

/-- Row of `wx_robot_configs` (Go struct `WxRobotConfig`). -/
structure WxRobotConfig where
  id : Nat
  address : String
  adminKey : String
  ownerId : Nat
  description : String
  adminUsers : String
  createTime : Nat
  updateTime : Nat
deriving Repr, DecidableEq

/-- Row of `wx_user_logins` (Go struct `WxUserLogin`).  `status`: 1 normal,
2 risk, 3 needs re-login; `isInitialized`, `isMessageBot`,
`hasSecurityRisk`: 0/1 flags, kept as `Int` like the Go `int` fields. -/
structure WxUserLogin where
  id : Nat
  robotId : Nat
  token : String
  wxId : String
  nickName : String
  extensionTime : Nat
  hasSecurityRisk : Int
  expirationTime : Nat
  status : Int
  isInitialized : Int
  isMessageBot : Int
  createTime : Nat
  updateTime : Nat
deriving Repr, DecidableEq

/-- Row of `wx_groups` (Go struct `WxGroup`). -/
structure WxGroup where
  id : Nat
  wxId : String
  groupId : String
  groupNickName : String
  createTime : Nat
  updateTime : Nat
deriving Repr, DecidableEq

/-- One entry of `GroupListResponse.Data.GroupList`; the nested
`userName.str` / `nickName.str` wrappers are flattened. -/
structure GroupEntry where
  userNameStr : String
  nickNameStr : String
  chatRoomOwner : String
deriving Repr, DecidableEq

/-- External `/group/GroupList` envelope (Go `GroupListResponse`). -/
structure GroupListResponse where
  code : Int
  groupList : List GroupEntry
  isInitFinished : Bool
  count : Int
  text : String
deriving Repr, DecidableEq

/-- External `/login/CheckCanSetAlias` envelope; only the fields the
schedulers read are kept. -/
structure CheckCanSetAliasResponse where
  code : Int
  text : String
deriving Repr, DecidableEq

/-- External `/login/GetInItStatus` envelope (Go `GetInitStatusResponse`):
`data` is the onboarding-completion flag. -/
structure GetInitStatusResponse where
  code : Int
  data : Bool
  text : String
deriving Repr, DecidableEq

/-- The persisted store the schedulers reconcile: the session table and the
group table. -/
structure Store where
  users : List WxUserLogin
  groups : List WxGroup
deriving Repr, DecidableEq

/-! ## Persistence gateway (service.go database methods) -/

/-- `First` lookup on the `(robot_id, wx_id)` pair used by `SaveUser`. -/
def findUserByRobotWx (db : List WxUserLogin) (robotId : Nat) (wxId : String) :
    Option WxUserLogin :=
  db.find? (fun u => u.robotId == robotId && u.wxId == wxId)

/-- GORM auto-increment id for a session insert. -/
def freshUserId (db : List WxUserLogin) : Nat :=
  (db.map (fun u => u.id)).foldr Nat.max 0 + 1

/-- `SaveUser`: look up by `(robot_id, wx_id)`; if found, overwrite the row
keeping the original `id` and `createTime` and stamping `updateTime := now`;
otherwise insert a new row (auto id, both timestamps `now`). -/
def SaveUser (db : List WxUserLogin) (user : WxUserLogin) (now : Nat) :
    List WxUserLogin :=
  match findUserByRobotWx db user.robotId user.wxId with
  | some existingUser =>
      let u := { user with
                 id := existingUser.id
                 createTime := existingUser.createTime
                 updateTime := now }
      db.map (fun r => if r.id == existingUser.id then u else r)
  | none =>
      db ++ [{ user with
               id := freshUserId db
               createTime := now
               updateTime := now }]

/-- `GetInitializedUsers`: `is_initialized = 1 AND status = 1`. -/
def GetInitializedUsers (db : List WxUserLogin) : List WxUserLogin :=
  db.filter (fun u => u.isInitialized == 1 && u.status == 1)

/-- `GetUninitializedUsers`: `is_initialized = 0 AND status = 1`. -/
def GetUninitializedUsers (db : List WxUserLogin) : List WxUserLogin :=
  db.filter (fun u => u.isInitialized == 0 && u.status == 1)

/-- `GetActiveUsers`: `status = 1`. -/
def GetActiveUsers (db : List WxUserLogin) : List WxUserLogin :=
  db.filter (fun u => u.status == 1)

/-- `UpdateUserStatus`: single-column update of `status` keyed by `id`
(GORM also stamps `updateTime`). -/
def UpdateUserStatus (db : List WxUserLogin) (userID : Nat) (status : Int)
    (now : Nat) : List WxUserLogin :=
  db.map (fun u => if u.id == userID then
                     { u with status := status, updateTime := now }
                   else u)

/-- `UpdateUserInitializationStatus`: sets `is_initialized = 1` keyed by
`id` (GORM also stamps `updateTime`). -/
def UpdateUserInitializationStatus (db : List WxUserLogin) (userID : Nat)
    (now : Nat) : List WxUserLogin :=
  db.map (fun u => if u.id == userID then
                     { u with isInitialized := 1, updateTime := now }
                   else u)

/-- GORM auto-increment id for a group insert. -/
def freshGroupId (db : List WxGroup) : Nat :=
  (db.map (fun g => g.id)).foldr Nat.max 0 + 1

/-- `SaveOrUpdateGroup`: look up by `(wx_id, group_id)`; insert when absent;
when present, rewrite the row (same `id`, new `updateTime`) only if the
nickname changed, else leave the table untouched. -/
def SaveOrUpdateGroup (db : List WxGroup) (group : WxGroup) (now : Nat) :
    List WxGroup :=
  match db.find? (fun r => r.wxId == group.wxId && r.groupId == group.groupId) with
  | none =>
      db ++ [{ group with
               id := freshGroupId db
               createTime := now
               updateTime := now }]
  | some existing =>
      if existing.groupNickName == group.groupNickName then db
      else
        db.map (fun r => if r.id == existing.id then
                           { existing with
                             groupNickName := group.groupNickName
                             updateTime := now }
                         else r)

/-- `DeleteGroupsByWxIDNotInList`: with an empty keep-list, delete every
group row of `wxID`; otherwise delete the rows of `wxID` whose `group_id`
is not in the keep-list. -/
def DeleteGroupsByWxIDNotInList (db : List WxGroup) (wxID : String)
    (groupIDs : List String) : List WxGroup :=
  if groupIDs.isEmpty then
    db.filter (fun r => !(r.wxId == wxID))
  else
    db.filter (fun r => !(r.wxId == wxID && !(groupIDs.contains r.groupId)))

/-- `GetGroupsByWxID`. -/
def GetGroupsByWxID (db : List WxGroup) (wxID : String) : List WxGroup :=
  db.filter (fun r => r.wxId == wxID)

/-- `First` lookup by primary key on the session table. -/
def getUserById (db : List WxUserLogin) (id : Nat) : Option WxUserLogin :=
  db.find? (fun u => u.id == id)

/-! ## External API client normalization (wx_client.go)

Each client function takes the wire outcome of its HTTP call (`none` =
transport failure) and normalizes it: the accepted application codes pass
through, every other code becomes an error carrying the external `Text`. -/

/-- `WxAPIClient.CheckCanSetAlias`: codes 200 and 300 are valid outcomes,
anything else is an error. -/
def clientCheckCanSetAlias (wire : Option CheckCanSetAliasResponse) :
    Except String CheckCanSetAliasResponse :=
  match wire with
  | none => .error "transport"
  | some resp =>
      if resp.code != 200 && resp.code != 300 then .error resp.text
      else .ok resp

/-- `WxAPIClient.GetGroupList`: only code 200 is accepted; any other code
is returned as an error. -/
def clientGetGroupList (wire : Option GroupListResponse) :
    Except String GroupListResponse :=
  match wire with
  | none => .error "transport"
  | some resp =>
      if resp.code != 200 then .error resp.text
      else .ok resp

/-- `WxAPIClient.GetInitStatus`: only code 200 is accepted. -/
def clientGetInitStatus (wire : Option GetInitStatusResponse) :
    Except String GetInitStatusResponse :=
  match wire with
  | none => .error "transport"
  | some resp =>
      if resp.code != 200 then .error resp.text
      else .ok resp

example :
    clientGetGroupList (some ⟨500, [], false, 0, "boom"⟩) = .error "boom" := rfl

example :
    SaveUser [] ⟨0, 7, "t", "w", "n", 0, 0, 0, 1, 0, 0, 0, 0⟩ 5 =
      [⟨1, 7, "t", "w", "n", 0, 0, 0, 1, 0, 0, 5, 5⟩] := rfl

/-! ## Group-sync scheduler (group_sync_scheduler)

`processGroupSync` builds one `WxGroup` value per listed group and upserts
it, collecting the listed `group_id`s, then deletes the persisted groups of
the session absent from that list.  The fallible variants thread a storage
failure oracle and abort at the first failing statement, like the Go code's
early `return err`. -/

/-- The `WxGroup` value `processGroupSync` / `saveGroupInfo` build for one
listed group (zero id and timestamps before insertion). -/
def mkSyncGroup (wxID : String) (g : GroupEntry) : WxGroup :=
  { id := 0, wxId := wxID, groupId := g.userNameStr,
    groupNickName := g.nickNameStr, createTime := 0, updateTime := 0 }

/-- The upsert loop of `processGroupSync` with every save succeeding. -/
def upsertGroups (db : List WxGroup) (wxID : String) (gl : List GroupEntry)
    (now : Nat) : List WxGroup :=
  gl.foldl (fun d g => SaveOrUpdateGroup d (mkSyncGroup wxID g) now) db

/-- The upsert loop of `processGroupSync` with a storage failure oracle:
the first failing `SaveOrUpdateGroup` aborts the loop. -/
def upsertGroupsE (saveFails : WxGroup → Bool) (wxID : String) (now : Nat) :
    List WxGroup → List GroupEntry → Except Unit (List WxGroup)
  | db, [] => .ok db
  | db, g :: rest =>
      if saveFails (mkSyncGroup wxID g) then .error ()
      else upsertGroupsE saveFails wxID now
             (SaveOrUpdateGroup db (mkSyncGroup wxID g) now) rest

/-- `processGroupSync` with every statement succeeding: upsert every listed
group, then delete the session's groups absent from the listed ids. -/
def processGroupSync (db : List WxGroup) (wxID : String)
    (gl : List GroupEntry) (now : Nat) : List WxGroup :=
  DeleteGroupsByWxIDNotInList (upsertGroups db wxID gl now) wxID
    (gl.map (fun g => g.userNameStr))

/-- `processGroupSync` with storage failure oracles. -/
def processGroupSyncE (saveFails : WxGroup → Bool)
    (deleteFails : String → Bool) (db : List WxGroup) (wxID : String)
    (resp : GroupListResponse) (now : Nat) : Except Unit (List WxGroup) :=
  match upsertGroupsE saveFails wxID now db resp.groupList with
  | .error e => .error e
  | .ok db1 =>
      if deleteFails wxID then .error ()
      else .ok (DeleteGroupsByWxIDNotInList db1 wxID
                  (resp.groupList.map (fun g => g.userNameStr)))

/-- Environment of one group-sync tick: robot lookup (`none` = lookup
error or missing row), the `/group/GroupList` wire oracle, and the storage
failure oracles. -/
structure GroupEnv where
  getRobot : Nat → Option WxRobotConfig
  groupWire : String → String → Option GroupListResponse
  saveGroupFails : WxGroup → Bool
  deleteGroupsFails : String → Bool

/-- `syncGroupsForUser`: resolve the robot, fetch the group list through
the client, keep the `Code != 200` skip branch of the Go source (reachable
only if the client were to hand back a non-200 response without an error),
then run `processGroupSync`. -/
def syncGroupsForUser (env : GroupEnv) (gdb : List WxGroup)
    (user : WxUserLogin) (now : Nat) : Except Unit (List WxGroup) :=
  match env.getRobot user.robotId with
  | none => .error ()
  | some robot =>
      match clientGetGroupList (env.groupWire robot.address user.token) with
      | .error _ => .error ()
      | .ok groupResp =>
          if groupResp.code != 200 then .ok gdb
          else processGroupSyncE env.saveGroupFails env.deleteGroupsFails
                 gdb user.wxId groupResp now

/-- Running state of one `SyncGroupsForAllUsers` tick. -/
structure GroupTickState where
  store : Store
  successCount : Nat
  errorCount : Nat
deriving Repr, DecidableEq

/-- One iteration of the `SyncGroupsForAllUsers` loop: a failing item is
tallied in `errorCount` and the loop continues. -/
def groupStep (env : GroupEnv) (now : Nat) (st : GroupTickState)
    (user : WxUserLogin) : GroupTickState :=
  match syncGroupsForUser env st.store.groups user now with
  | .error _ => { st with errorCount := st.errorCount + 1 }
  | .ok gdb =>
      { store := { st.store with groups := gdb },
        successCount := st.successCount + 1,
        errorCount := st.errorCount }

/-- The loop body of a `SyncGroupsForAllUsers` tick whose intake query
succeeded. -/
def groupTickRun (env : GroupEnv) (store : Store) (now : Nat) :
    GroupTickState :=
  (GetInitializedUsers store.users).foldl (groupStep env now) ⟨store, 0, 0⟩

/-- `SyncGroupsForAllUsers`: the tick errors exactly when the intake query
(`GetInitializedUsers`) fails; otherwise every intake session is processed. -/
def SyncGroupsForAllUsersTick (env : GroupEnv) (intakeFails : Bool)
    (store : Store) (now : Nat) : Except Unit GroupTickState :=
  if intakeFails then .error () else .ok (groupTickRun env store now)

/-! ## Login-status scheduler (login_status_scheduler) -/

/-- Environment of one login-status tick: robot lookup, the
`/login/CheckCanSetAlias` wire oracle, and the `UpdateUserStatus` failure
oracle. -/
structure LoginEnv where
  getRobot : Nat → Option WxRobotConfig
  aliasWire : String → String → Option CheckCanSetAliasResponse
  updateFails : Nat → Bool

/-- Running state of one `CheckLoginStatus` tick. -/
structure LoginTickState where
  store : Store
  successCount : Nat
  errorCount : Nat
  reloginCount : Nat
deriving Repr, DecidableEq

/-- One iteration of the `CheckLoginStatus` loop: robot lookup or client
failure is tallied as an error; a code-300 response sets the session's
status to 3 (needs re-login); any other accepted code just counts as a
success with no write. -/
def loginStep (env : LoginEnv) (now : Nat) (st : LoginTickState)
    (user : WxUserLogin) : LoginTickState :=
  match env.getRobot user.robotId with
  | none => { st with errorCount := st.errorCount + 1 }
  | some robot =>
      match clientCheckCanSetAlias (env.aliasWire robot.address user.token) with
      | .error _ => { st with errorCount := st.errorCount + 1 }
      | .ok resp =>
          if resp.code == 300 then
            if env.updateFails user.id then
              { st with errorCount := st.errorCount + 1 }
            else
              { st with
                store := { st.store with
                           users := UpdateUserStatus st.store.users user.id 3 now },
                reloginCount := st.reloginCount + 1 }
          else { st with successCount := st.successCount + 1 }

/-- The loop body of a `CheckLoginStatus` tick whose intake query
succeeded. -/
def loginTickRun (env : LoginEnv) (store : Store) (now : Nat) :
    LoginTickState :=
  (GetActiveUsers store.users).foldl (loginStep env now) ⟨store, 0, 0, 0⟩

/-- `CheckLoginStatus`: the tick errors exactly when the intake query
(`GetActiveUsers`) fails. -/
def CheckLoginStatusTick (env : LoginEnv) (intakeFails : Bool)
    (store : Store) (now : Nat) : Except Unit LoginTickState :=
  if intakeFails then .error () else .ok (loginTickRun env store now)

/-! ## Initialization scheduler (initialization_scheduler) -/

/-- Environment of one initialization tick: robot lookup, the
`/login/GetInItStatus` and `/group/GroupList` wire oracles, and the storage
failure oracles for the group-existence query, the group upserts and the
`is_initialized` update. -/
structure InitEnv where
  getRobot : Nat → Option WxRobotConfig
  initWire : String → String → Option GetInitStatusResponse
  groupWire : String → String → Option GroupListResponse
  groupsQueryFails : String → Bool
  saveGroupFails : WxGroup → Bool
  updateInitFails : Nat → Bool

/-- `saveGroupInfo`: nothing to save when the response code is not 200 or
the list is empty (the code check is unreachable behind the client);
otherwise upsert every listed group. -/
def saveGroupInfoE (saveFails : WxGroup → Bool) (gdb : List WxGroup)
    (wxID : String) (resp : GroupListResponse) (now : Nat) :
    Except Unit (List WxGroup) :=
  if resp.code != 200 || resp.groupList.isEmpty then .ok gdb
  else upsertGroupsE saveFails wxID now gdb resp.groupList

/-- `processUser` of the initialization scheduler.  A session that is not
yet initialized externally leaves the store untouched (whether or not it
already has group rows — both the "already handled" skip and the "keep
waiting" outcome return nil); an initialized one gets its group list
fetched and saved and its `is_initialized` flag set. -/
def initProcessUser (env : InitEnv) (now : Nat) (store : Store)
    (user : WxUserLogin) : Except Unit Store :=
  match env.getRobot user.robotId with
  | none => .error ()
  | some robot =>
      match clientGetInitStatus (env.initWire robot.address user.token) with
      | .error _ => .error ()
      | .ok initResp =>
          if !(initResp.code == 200 && initResp.data) then
            if env.groupsQueryFails user.wxId then .error ()
            else .ok store
          else
            match clientGetGroupList (env.groupWire robot.address user.token) with
            | .error _ => .error ()
            | .ok groupResp =>
                match saveGroupInfoE env.saveGroupFails store.groups
                        user.wxId groupResp now with
                | .error e => .error e
                | .ok gdb =>
                    if env.updateInitFails user.id then .error ()
                    else .ok { users := UpdateUserInitializationStatus
                                          store.users user.id now,
                               groups := gdb }

/-- The loop body of a `CheckInitializationStatus` tick whose intake query
succeeded: a failing item is logged and the loop continues. -/
def initTickRun (env : InitEnv) (store : Store) (now : Nat) : Store :=
  (GetUninitializedUsers store.users).foldl
    (fun s u => match initProcessUser env now s u with
                | .error _ => s
                | .ok s1 => s1) store

/-- `CheckInitializationStatus`: the tick errors exactly when the intake
query (`GetUninitializedUsers`) fails. -/
def CheckInitializationStatusTick (env : InitEnv) (intakeFails : Bool)
    (store : Store) (now : Nat) : Except Unit Store :=
  if intakeFails then .error () else .ok (initTickRun env store now)

/-! ## Message-bot selection strategy (message_strategy.go)

`queryMessageBots` resolves the candidate list and fails on an empty one;
the round-robin strategy keeps a cursor and picks
`candidates[cursor % len]`, then advances the cursor modulo the length. -/

/-- One row of the `queryMessageBots` join. -/
structure MessageBotQueryResult where
  userId : Nat
  userToken : String
  userWxId : String
  userNickName : String
  robotId : Nat
  robotAddress : String
  robotAdminKey : String
deriving Repr, DecidableEq

/-- `RoundRobinMessageSendStrategy`: the per-instance cursor. -/
structure RoundRobinMessageSendStrategy where
  currentIndex : Nat
deriving Repr, DecidableEq

/-- `NewRoundRobinMessageSendStrategy`: cursor starts at 0. -/
def newRoundRobinStrategy : RoundRobinMessageSendStrategy := ⟨0⟩

/-- The selection step of `RoundRobinMessageSendStrategy.GetMessageBot`
over the candidate list `queryMessageBots` returned: `none` when the list
is empty (the query reports "no eligible bot" before any selection),
otherwise the picked candidate and the advanced strategy state. -/
def roundRobinSelect (s : RoundRobinMessageSendStrategy)
    (results : List MessageBotQueryResult) :
    Option (MessageBotQueryResult × RoundRobinMessageSendStrategy) :=
  if h : results.length = 0 then none
  else
    let selectedIndex := s.currentIndex % results.length
    some (results.get ⟨selectedIndex, Nat.mod_lt _ (Nat.pos_of_ne_zero h)⟩,
          ⟨(s.currentIndex + 1) % results.length⟩)

/-- Strategy state after `k` selections starting from a fresh instance. -/
def rrStateAfter (results : List MessageBotQueryResult) :
    Nat → RoundRobinMessageSendStrategy
  | 0 => newRoundRobinStrategy
  | k + 1 =>
      match roundRobinSelect (rrStateAfter results k) results with
      | none => rrStateAfter results k
      | some (_, s1) => s1

/-- The candidate returned by selection number `k` (0-based) against a
fixed candidate list, starting from a fresh strategy instance. -/
def rrSelection (results : List MessageBotQueryResult) (k : Nat) :
    Option MessageBotQueryResult :=
  (roundRobinSelect (rrStateAfter results k) results).map (fun p => p.1)

/-! ## Outbound sends (wx_client.go SendText / SendImage / SendTextAndImage)

The raw wire responses are embedded with the fields the success checks
read; the check functions start after JSON parsing, exactly mirroring the
cascade of early error returns in the Go code. -/

/-- One entry of `chat_send_ret_list`. -/
structure ChatSendRet where
  ret : Int
  toUserNameStr : String
  msgId : Int
  clientMsgId : Int
  createTime : Int
  serverTime : Int
  newMsgId : Int
deriving Repr, DecidableEq

/-- Nested `base_response` / `baseResponse`. -/
structure BaseResponse where
  ret : Int
  errMsgStr : String
deriving Repr, DecidableEq

/-- `resp` of one `SendTextMessageRawResponse.Data` item. -/
structure SendTextRespInner where
  baseResponse : BaseResponse
  count : Int
  chatSendRetList : List ChatSendRet
deriving Repr, DecidableEq

/-- One `SendTextMessageRawResponse.Data` item. -/
structure SendTextDataItem where
  isSendSuccess : Bool
  textContent : String
  toUserName : String
  resp : Option SendTextRespInner
deriving Repr, DecidableEq

/-- Raw `/message/SendTextMessage` envelope. -/
structure SendTextMessageRawResponse where
  code : Int
  text : String
  data : List SendTextDataItem
deriving Repr, DecidableEq

/-- The simplified `SendTextResponse` handed back on success. -/
structure SendTextResponse where
  toUserName : String
  clientMsgId : Int
  createTime : Int
  newMsgId : Int
deriving Repr, DecidableEq

/-- `resp` of one `SendImageNewMessageRawResponse.Data` item. -/
structure SendImageRespInner where
  baseResponse : BaseResponse
  msgId : Int
  fromUserNameStr : String
  toUserNameStr : String
  createTime : Int
  newMsgId : Int
deriving Repr, DecidableEq

/-- One `SendImageNewMessageRawResponse.Data` item. -/
structure SendImageDataItem where
  errMsg : String
  imageId : String
  isSendSuccess : Bool
  toUserName : String
  resp : Option SendImageRespInner
deriving Repr, DecidableEq

/-- Raw `/message/SendImageNewMessage` envelope. -/
structure SendImageNewMessageRawResponse where
  code : Int
  text : String
  data : List SendImageDataItem
deriving Repr, DecidableEq

/-- The simplified `SendImageResponse` handed back on success. -/
structure SendImageResponse where
  msgId : Int
  fromUserName : String
  toUserName : String
  createTime : Int
  newMsgId : Int
deriving Repr, DecidableEq

/-- The result cascade of `SendText` after parsing: no data, a false
`isSendSuccess`, a missing `resp`, a nonzero `baseResponse.ret`, an empty
`chat_send_ret_list` or a nonzero first send ret each abort with an error;
the envelope `Code` is never consulted. -/
def sendTextCheck (raw : SendTextMessageRawResponse) :
    Except String SendTextResponse :=
  match raw.data with
  | [] => .error "no response data"
  | firstResult :: _ =>
      if !firstResult.isSendSuccess then .error "send flag false"
      else
        match firstResult.resp with
        | none => .error "incomplete response"
        | some r =>
            if r.baseResponse.ret != 0 then .error r.baseResponse.errMsgStr
            else
              match r.chatSendRetList with
              | [] => .error "no send result data"
              | sendRet :: _ =>
                  if sendRet.ret != 0 then .error "send ret nonzero"
                  else .ok { toUserName := sendRet.toUserNameStr,
                             clientMsgId := sendRet.clientMsgId,
                             createTime := sendRet.createTime,
                             newMsgId := sendRet.newMsgId }

/-- The result cascade of `SendImage` after parsing: no data, a nonempty
`errMsg`, a missing `resp` or a nonzero `baseResponse.ret` each abort with
an error; neither the envelope `Code` nor `isSendSuccess` is consulted. -/
def sendImageCheck (raw : SendImageNewMessageRawResponse) :
    Except String SendImageResponse :=
  match raw.data with
  | [] => .error "no response data"
  | firstResult :: _ =>
      if firstResult.errMsg != "" then .error firstResult.errMsg
      else
        match firstResult.resp with
        | none => .error "incomplete response"
        | some r =>
            if r.baseResponse.ret != 0 then .error r.baseResponse.errMsgStr
            else .ok { msgId := r.msgId,
                       fromUserName := r.fromUserNameStr,
                       toUserName := r.toUserNameStr,
                       createTime := r.createTime,
                       newMsgId := r.newMsgId }

/-- `SendTextAndImageRequest`. -/
structure SendTextAndImageRequest where
  textContent : String
  imageContent : String
  toUserName : String
deriving Repr, DecidableEq

/-- `SendTextAndImageResponse`: the combined `Success` flag and message. -/
structure SendTextAndImageResponse where
  success : Bool
  message : String
deriving Repr, DecidableEq

/-- `SendTextAndImage`: with both contents empty it returns an error;
otherwise it performs the applicable sends (their outcomes are the
`textSendErr` / `imageSendErr` oracles, `none` meaning the send succeeded)
and returns a combined response with a nil error even when a send failed —
the failure is only recorded in `success` and `message`. -/
def SendTextAndImage (textSendErr imageSendErr : Option String)
    (req : SendTextAndImageRequest) : Except String SendTextAndImageResponse :=
  let hasText := req.textContent != ""
  let hasImage := req.imageContent != ""
  if !hasText && !hasImage then .error "text and image both empty"
  else
    let failureReasons :=
      (if hasText && textSendErr.isSome then
         ["text send failed: " ++ textSendErr.getD ""]
       else []) ++
      (if hasImage && imageSendErr.isSome then
         ["image send failed: " ++ imageSendErr.getD ""]
       else [])
    let success := !(hasText && textSendErr.isSome)
                   && !(hasImage && imageSendErr.isSome)
    .ok { success := success,
          message := if success then "send ok"
                     else String.intercalate "; " failureReasons }

/-- Outcome of the `sendTextAndImage` HTTP handler. -/
inductive HandlerOutcome where
  | badRequest : HandlerOutcome
  | notFound : HandlerOutcome
  | internalError : HandlerOutcome
  | success : SendTextAndImageResponse → HandlerOutcome
deriving Repr, DecidableEq

/-- The `sendTextAndImage` HTTP handler: rejects a request with both
contents empty, answers 404 when the strategy finds no message bot, maps a
non-nil service error to 500, and otherwise wraps the service response in
its success envelope. -/
def sendTextAndImageHandler (botFound : Bool)
    (textSendErr imageSendErr : Option String)
    (req : SendTextAndImageRequest) : HandlerOutcome :=
  if req.textContent == "" && req.imageContent == "" then .badRequest
  else if !botFound then .notFound
  else
    match SendTextAndImage textSendErr imageSendErr req with
    | .error _ => .internalError
    | .ok resp => .success resp

/-! ## Helper lemmas -/

lemma mem_le_foldr_max (l : List Nat) (x : Nat) (h : x ∈ l) :
    x ≤ l.foldr Nat.max 0 := by
  induction l with
  | nil => cases h
  | cons a t ih =>
      rcases List.mem_cons.mp h with rfl | h
      · exact Nat.le_max_left _ _
      · exact Nat.le_trans (ih h) (Nat.le_max_right _ _)

lemma freshUserId_gt (db : List WxUserLogin) (u : WxUserLogin) (h : u ∈ db) :
    u.id < freshUserId db :=
  Nat.lt_succ_of_le (mem_le_foldr_max _ _ (List.mem_map_of_mem _ h))

lemma freshGroupId_gt (db : List WxGroup) (g : WxGroup) (h : g ∈ db) :
    g.id < freshGroupId db :=
  Nat.lt_succ_of_le (mem_le_foldr_max _ _ (List.mem_map_of_mem _ h))

lemma find?_append_none {α : Type} (p : α → Bool) (l1 l2 : List α)
    (h : l1.find? p = none) : (l1 ++ l2).find? p = l2.find? p := by
  rw [List.find?_append, h, Option.none_or]

/-- The sessions persisted for one `(robotId, wxId)` pair. -/
def usersWithPair (db : List WxUserLogin) (robotId : Nat) (wxId : String) :
    List WxUserLogin :=
  db.filter (fun u => u.robotId == robotId && u.wxId == wxId)

/-! ## C2: session upsert on the `(robotId, wxId)` natural key -/

/-- C2.  Saving a session for a `(robotId, wxId)` pair with no persisted
row inserts exactly one new row, and saving again for the same pair with
different field values leaves exactly one persisted row for the pair,
carrying the second save's field values but the `id` and `createTime` of
the first save (and the second save's `updateTime`). -/
theorem saveUser_upsert_idempotent (db : List WxUserLogin)
    (u1 u2 : WxUserLogin) (t1 t2 : Nat)
    (hnone : findUserByRobotWx db u1.robotId u1.wxId = none)
    (hr : u2.robotId = u1.robotId) (hw : u2.wxId = u1.wxId) :
    usersWithPair (SaveUser db u1 t1) u1.robotId u1.wxId =
      [{ u1 with id := freshUserId db, createTime := t1, updateTime := t1 }] ∧
    usersWithPair (SaveUser (SaveUser db u1 t1) u2 t2) u1.robotId u1.wxId =
      [{ u2 with id := freshUserId db, createTime := t1, updateTime := t2 }] := by
  have hall : ∀ u ∈ db, ¬(u.robotId == u1.robotId && u.wxId == u1.wxId) = true :=
    List.find?_eq_none.mp hnone
  have hfilter : db.filter (fun u => u.robotId == u1.robotId && u.wxId == u1.wxId) = [] :=
    List.filter_eq_nil_iff.mpr hall
  set n1 : WxUserLogin :=
    { u1 with id := freshUserId db, createTime := t1, updateTime := t1 } with hn1
  have hp1 : (n1.robotId == u1.robotId && n1.wxId == u1.wxId) = true := by
    simp [hn1]
  have hdb1 : SaveUser db u1 t1 = db ++ [n1] := by
    unfold SaveUser
    rw [hnone]
  have hfirst : usersWithPair (SaveUser db u1 t1) u1.robotId u1.wxId = [n1] := by
    rw [hdb1]
    unfold usersWithPair
    rw [List.filter_append, hfilter, List.nil_append]
    simp [List.filter, hp1]
  refine ⟨hfirst, ?_⟩
  have hfind1 : findUserByRobotWx (db ++ [n1]) u2.robotId u2.wxId = some n1 := by
    unfold findUserByRobotWx
    rw [hr, hw, find?_append_none _ _ _ hnone]
    simp [List.find?, hp1]
  set u2' : WxUserLogin :=
    { u2 with id := freshUserId db, createTime := t1, updateTime := t2 } with hu2'
  have hdb2 : SaveUser (SaveUser db u1 t1) u2 t2 = db ++ [u2'] := by
    rw [hdb1]
    unfold SaveUser
    rw [hfind1]
    have hmap : (db ++ [n1]).map
        (fun r => if r.id == n1.id then
          { u2 with id := n1.id, createTime := n1.createTime, updateTime := t2 }
          else r) = db ++ [u2'] := by
      rw [List.map_append]
      have h1 : db.map
          (fun r => if r.id == n1.id then
            { u2 with id := n1.id, createTime := n1.createTime, updateTime := t2 }
            else r) = db := by
        have := List.map_congr_left (l := db)
          (f := fun r => if r.id == n1.id then
            { u2 with id := n1.id, createTime := n1.createTime, updateTime := t2 }
            else r) (g := fun r => r)
          (fun r hrmem => by
            have hne : r.id ≠ n1.id := Nat.ne_of_lt (freshUserId_gt db r hrmem)
            simp [hne])
        rw [this, List.map_id']
      rw [h1]
      simp [hu2', hn1]
    exact hmap
  rw [hdb2]
  unfold usersWithPair
  rw [List.filter_append, hfilter, List.nil_append]
  have hp2 : (u2'.robotId == u1.robotId && u2'.wxId == u1.wxId) = true := by
    simp [hu2', hr, hw]
  simp [List.filter, hp2]

/-- Witness for C2 at a concrete input: an empty table, then two saves for
the pair `(7, "wx")` with nicknames `"a"` then `"b"`. -/
theorem saveUser_upsert_idempotent_witness :
    (findUserByRobotWx [] 7 "wx" = none ∧ (7 : Nat) = 7 ∧ "wx" = "wx") ∧
    usersWithPair (SaveUser [] ⟨0, 7, "t1", "wx", "a", 0, 0, 0, 1, 0, 0, 0, 0⟩ 10) 7 "wx" =
      [⟨1, 7, "t1", "wx", "a", 0, 0, 0, 1, 0, 0, 10, 10⟩] ∧
    usersWithPair
      (SaveUser (SaveUser [] ⟨0, 7, "t1", "wx", "a", 0, 0, 0, 1, 0, 0, 0, 0⟩ 10)
        ⟨0, 7, "t2", "wx", "b", 0, 0, 0, 1, 0, 0, 0, 0⟩ 20) 7 "wx" =
      [⟨1, 7, "t2", "wx", "b", 0, 0, 0, 1, 0, 0, 10, 20⟩] := by
  refine ⟨⟨rfl, rfl, rfl⟩, ?_⟩
  have h := saveUser_upsert_idempotent []
    ⟨0, 7, "t1", "wx", "a", 0, 0, 0, 1, 0, 0, 0, 0⟩
    ⟨0, 7, "t2", "wx", "b", 0, 0, 0, 1, 0, 0, 0, 0⟩ 10 20 rfl rfl rfl
  exact h

/-! ## C5: the initialization job's intake -/

/-- The initialization intake as the spec words it ("sessions where
`isInitialized == false`", with no filter on any other field) — stated for
comparison with the source's `GetUninitializedUsers`. -/
def specInitIntake (db : List WxUserLogin) : List WxUserLogin :=
  db.filter (fun u => u.isInitialized == 0)

/-- Counterexample to C5 as stated: an uninitialized session whose status
is 3 (needs re-login) is excluded from `GetUninitializedUsers` although the
spec's intake set contains it — the source query also filters on
`status = 1`. -/
theorem initIntake_extra_filter_cex :
    GetUninitializedUsers [⟨1, 7, "t", "wx", "n", 0, 0, 0, 3, 0, 0, 0, 0⟩] = [] ∧
    specInitIntake [⟨1, 7, "t", "wx", "n", 0, 0, 0, 3, 0, 0, 0, 0⟩] =
      [⟨1, 7, "t", "wx", "n", 0, 0, 0, 3, 0, 0, 0, 0⟩] := by
  exact ⟨rfl, rfl⟩

/-- C5 (amended).  The initialization job's intake is exactly the set of
sessions with `isInitialized == false` AND `status == Normal (1)`: the
intake query carries a status filter in addition to the initialization
flag. -/
theorem initIntake_characterization (db : List WxUserLogin)
    (u : WxUserLogin) :
    u ∈ GetUninitializedUsers db ↔
      u ∈ db ∧ u.isInitialized = 0 ∧ u.status = 1 := by
  unfold GetUninitializedUsers
  rw [List.mem_filter]
  simp [and_assoc]

/-! ## C7: round-robin fairness -/

lemma rrStateAfter_currentIndex (results : List MessageBotQueryResult)
    (h : results.length ≠ 0) (k : Nat) :
    (rrStateAfter results k).currentIndex = k % results.length := by
  induction k with
  | zero => simp [rrStateAfter, newRoundRobinStrategy, Nat.zero_mod]
  | succ k ih =>
      show (match roundRobinSelect (rrStateAfter results k) results with
            | none => rrStateAfter results k
            | some (_, s1) => s1).currentIndex = (k + 1) % results.length
      unfold roundRobinSelect
      rw [dif_neg h]
      simp only []
      rw [ih]
      calc (k % results.length + 1) % results.length
          = (k % results.length % results.length + 1 % results.length) %
              results.length := by rw [Nat.add_mod]
        _ = (k % results.length + 1 % results.length) % results.length := by
              rw [Nat.mod_mod_of_dvd _ (dvd_refl _)]
        _ = (k + 1) % results.length := (Nat.add_mod k 1 _).symm

lemma rrSelection_eq (results : List MessageBotQueryResult)
    (h : 0 < results.length) (k : Nat) :
    rrSelection results k =
      some (results.get ⟨k % results.length, Nat.mod_lt _ h⟩) := by
  unfold rrSelection roundRobinSelect
  rw [dif_neg (Nat.pos_iff_ne_zero.mp h)]
  simp only [Option.map_some']
  congr 1
  apply congrArg
  apply Fin.ext
  show (rrStateAfter results k).currentIndex % results.length =
    k % results.length
  rw [rrStateAfter_currentIndex results (Nat.pos_iff_ne_zero.mp h) k,
    Nat.mod_mod_of_dvd _ (dvd_refl _)]

/-- C7.  Against a fixed non-empty candidate list of size `N`, selection
number `k` (0-based) from a fresh round-robin strategy picks
`candidates[k % N]`; hence the first `N` selections return each candidate
exactly once in index order, and selection `N + 1` returns candidate 0
again. -/
theorem roundRobin_fairness (results : List MessageBotQueryResult)
    (h : 0 < results.length) :
    (∀ k, rrSelection results k =
        some (results.get ⟨k % results.length, Nat.mod_lt _ h⟩)) ∧
    ((List.range results.length).map (fun k => rrSelection results k) =
        results.map some ∧
      rrSelection results results.length = some (results.get ⟨0, h⟩)) := by
  refine ⟨rrSelection_eq results h, ?_, ?_⟩
  · apply List.ext_get
    · simp
    · intro i h1 h2
      rw [List.get_map, List.get_map, List.get_range,
        rrSelection_eq results h i]
      have hi : i < results.length := by simpa using h2
      congr 1
      apply congrArg
      apply Fin.ext
      show i % results.length = i
      exact Nat.mod_eq_of_lt hi
  · rw [rrSelection_eq results h results.length]
    congr 1
    apply congrArg
    apply Fin.ext
    show results.length % results.length = 0
    exact Nat.mod_self _

/-- A concrete three-candidate list for the C7 witness. -/
def rrCandidates : List MessageBotQueryResult :=
  [⟨1, "t1", "w1", "n1", 1, "a1", "k1"⟩,
   ⟨2, "t2", "w2", "n2", 1, "a2", "k2"⟩,
   ⟨3, "t3", "w3", "n3", 2, "a3", "k3"⟩]

/-- Witness for C7 at the concrete three-candidate list. -/
theorem roundRobin_fairness_witness :
    0 < rrCandidates.length ∧
    ((List.range rrCandidates.length).map
        (fun k => rrSelection rrCandidates k) = rrCandidates.map some ∧
      rrSelection rrCandidates rrCandidates.length =
        some (rrCandidates.get ⟨0, by decide⟩)) :=
  ⟨by decide, (roundRobin_fairness rrCandidates (by decide)).2⟩

/-! ## C8: outbound send success conditions -/

/-- A raw `/message/SendTextMessage` response with a non-200 envelope code
but all the per-item conditions satisfied. -/
def c8RawText : SendTextMessageRawResponse :=
  { code := 500, text := "internal error",
    data := [{ isSendSuccess := true, textContent := "hi", toUserName := "u",
               resp := some { baseResponse := { ret := 0, errMsgStr := "" },
                              count := 1,
                              chatSendRetList :=
                                [{ ret := 0, toUserNameStr := "u", msgId := 1,
                                   clientMsgId := 2, createTime := 3,
                                   serverTime := 4, newMsgId := 5 }] } }] }

/-- Counterexample to C8 as stated: `SendText` reports success on a
response whose envelope `Code` is 500 — the envelope code is not part of
the success condition. -/
theorem sendText_code_not_checked_cex :
    sendTextCheck c8RawText =
      .ok { toUserName := "u", clientMsgId := 2, createTime := 3, newMsgId := 5 } ∧
    c8RawText.code ≠ 200 := by
  exact ⟨rfl, by decide⟩

/-- C8 (amended).  `SendText` succeeds exactly when the response has a
first data item with `isSendSuccess` true, a present `resp` whose
`baseResponse.ret` is 0 and a first `chat_send_ret_list` entry with `ret`
0; `SendImage` succeeds exactly when the first data item has an empty
`errMsg` and a present `resp` whose `baseResponse.ret` is 0.  The envelope
`Code` is not consulted by either, and `isSendSuccess` is not consulted
for images. -/
theorem send_success_conditions (rawT : SendTextMessageRawResponse)
    (rawI : SendImageNewMessageRawResponse) :
    ((∃ ok, sendTextCheck rawT = .ok ok) ↔
      (∃ first rest, rawT.data = first :: rest ∧ first.isSendSuccess = true ∧
        ∃ r, first.resp = some r ∧ r.baseResponse.ret = 0 ∧
          ∃ s srest, r.chatSendRetList = s :: srest ∧ s.ret = 0)) ∧
    ((∃ ok, sendImageCheck rawI = .ok ok) ↔
      (∃ first rest, rawI.data = first :: rest ∧ first.errMsg = "" ∧
        ∃ r, first.resp = some r ∧ r.baseResponse.ret = 0)) := by
  constructor
  · obtain ⟨c, t, d⟩ := rawT
    cases d with
    | nil => simp [sendTextCheck]
    | cons first rest =>
        obtain ⟨ss, tc, tu, rsp⟩ := first
        cases ss with
        | false => simp [sendTextCheck]
        | true =>
            cases rsp with
            | none => simp [sendTextCheck]
            | some r =>
                obtain ⟨⟨bret, bmsg⟩, cnt, csl⟩ := r
                by_cases hb : bret = 0
                · cases csl with
                  | nil => simp [sendTextCheck, hb]
                  | cons s srest =>
                      by_cases hs : s.ret = 0
                      · simp [sendTextCheck, hb, hs]
                      · simp [sendTextCheck, hb, hs]
                · simp [sendTextCheck, hb]
  · obtain ⟨c, t, d⟩ := rawI
    cases d with
    | nil => simp [sendImageCheck]
    | cons first rest =>
        obtain ⟨em, iid, ss, tu, rsp⟩ := first
        by_cases he : em = ""
        · cases rsp with
          | none => simp [sendImageCheck, he]
          | some r =>
              obtain ⟨⟨bret, bmsg⟩, mid, fu, tus, ct, nm⟩ := r
              by_cases hb : bret = 0
              · simp [sendImageCheck, he, hb]
              · simp [sendImageCheck, he, hb]
        · simp [sendImageCheck, he]

/-! ## C9: combined text-and-image send error reporting -/

/-- Counterexample to C9 as stated: the text send fails (`some "network
down"`), yet the handler answers with its success envelope — the combined
send returns a nil error and records the failure only inside the response
body (`success = false`). -/
theorem sendTextAndImage_success_despite_failure_cex :
    sendTextAndImageHandler true (some "network down") none
        ⟨"hello", "", "g"⟩ =
      .success { success := false,
                 message := "text send failed: network down" } := by
  decide

/-- C9 (amended).  Whenever the request is not rejected at the boundary
(at least one content nonempty) and a message bot is found, the handler
always answers with its success envelope; an underlying send failure is
reported only through the body's `success = false` flag, never as a
user-visible error response. -/
theorem sendTextAndImage_handler_behavior (botFound : Bool)
    (textSendErr imageSendErr : Option String)
    (req : SendTextAndImageRequest)
    (hne : ¬(req.textContent = "" ∧ req.imageContent = ""))
    (hbot : botFound = true) :
    ∃ resp, sendTextAndImageHandler botFound textSendErr imageSendErr req =
        .success resp ∧
      (resp.success = false ↔
        ((req.textContent ≠ "" ∧ textSendErr.isSome) ∨
         (req.imageContent ≠ "" ∧ imageSendErr.isSome))) := by
  subst hbot
  by_cases ht : req.textContent = ""
  · by_cases hi : req.imageContent = ""
    · exact absurd ⟨ht, hi⟩ hne
    · cases textSendErr <;> cases imageSendErr <;>
        simp [sendTextAndImageHandler, SendTextAndImage, ht, hi]
  · by_cases hi : req.imageContent = ""
    · cases textSendErr <;> cases imageSendErr <;>
        simp [sendTextAndImageHandler, SendTextAndImage, ht, hi]
    · cases textSendErr <;> cases imageSendErr <;>
        simp [sendTextAndImageHandler, SendTextAndImage, ht, hi]

/-- Witness for C9's amended theorem at a concrete input: image-only
request, bot found, image send failing. -/
theorem sendTextAndImage_handler_behavior_witness :
    (¬(("" : String) = "" ∧ ("img" : String) = "") ∧ true = true) ∧
    ∃ resp, sendTextAndImageHandler true none (some "boom")
        ⟨"", "img", "g"⟩ = .success resp ∧
      (resp.success = false ↔
        ((("" : String) ≠ "" ∧ (none : Option String).isSome) ∨
         (("img" : String) ≠ "" ∧ (some "boom" : Option String).isSome))) := by
  refine ⟨⟨by simp, rfl⟩, ?_⟩
  exact sendTextAndImage_handler_behavior true none (some "boom")
    ⟨"", "img", "g"⟩ (by simp) rfl

/-! ## C4: non-200 group-list codes in the group-sync tick -/

/-- An initialized, normal-status session for the C4 run. -/
def c4User : WxUserLogin := ⟨1, 7, "tok", "wx1", "n", 0, 0, 0, 1, 1, 0, 0, 0⟩

/-- The robot the C4 session belongs to. -/
def c4Robot : WxRobotConfig := ⟨7, "http://r", "k", 1, "", "", 0, 0⟩

/-- A group row persisted for the C4 session before the tick. -/
def c4Group : WxGroup := ⟨1, "wx1", "g1", "G", 0, 0⟩

/-- C4 environment: the external `/group/GroupList` call answers with
application code 500 ("server busy"); storage never fails. -/
def c4Env : GroupEnv :=
  { getRobot := fun i => if i == 7 then some c4Robot else none
    groupWire := fun _ _ => some ⟨500, [], false, 0, "server busy"⟩
    saveGroupFails := fun _ => false
    deleteGroupsFails := fun _ => false }

/-- C4 evaluated at the failing input: one intake session whose group-list
call reports application code 500.  `GetGroupList` turns the non-200 code
into a client error before `syncGroupsForUser` can reach its
`Code != 200` skip branch, so the tick tallies the session in
`errorCount` (successCount 0) — the claim (and the code's own "not an
error, possibly transient" comment) says it should be skipped without an
error tally.  No persisted change occurs either way. -/
theorem groupSync_non200_tallied_as_error :
    SyncGroupsForAllUsersTick c4Env false ⟨[c4User], [c4Group]⟩ 10 =
      .ok { store := ⟨[c4User], [c4Group]⟩, successCount := 0, errorCount := 1 } ∧
    syncGroupsForUser c4Env [c4Group] c4User 10 = .error () := by
  exact ⟨rfl, rfl⟩

/-! ## C6: per-tick partial-batch resilience -/

lemma loginStep_counts (env : LoginEnv) (now : Nat) (st : LoginTickState)
    (user : WxUserLogin) :
    (loginStep env now st user).successCount +
      (loginStep env now st user).errorCount +
      (loginStep env now st user).reloginCount =
      st.successCount + st.errorCount + st.reloginCount + 1 := by
  unfold loginStep
  split
  · dsimp only; omega
  · split
    · dsimp only; omega
    · split
      · split
        · dsimp only; omega
        · dsimp only; omega
      · dsimp only; omega

lemma loginFold_counts (env : LoginEnv) (now : Nat)
    (us : List WxUserLogin) :
    ∀ st : LoginTickState,
      (us.foldl (loginStep env now) st).successCount +
        (us.foldl (loginStep env now) st).errorCount +
        (us.foldl (loginStep env now) st).reloginCount =
        st.successCount + st.errorCount + st.reloginCount + us.length := by
  induction us with
  | nil => intro st; simp
  | cons u t ih =>
      intro st
      rw [List.foldl_cons]
      have h1 := loginStep_counts env now st u
      have h2 := ih (loginStep env now st u)
      rw [h2, h1]
      simp [List.length_cons]
      omega

lemma groupStep_counts (env : GroupEnv) (now : Nat) (st : GroupTickState)
    (user : WxUserLogin) :
    (groupStep env now st user).successCount +
      (groupStep env now st user).errorCount =
      st.successCount + st.errorCount + 1 := by
  unfold groupStep
  cases syncGroupsForUser env st.store.groups user now with
  | error e => dsimp only; omega
  | ok gdb => dsimp only; omega

lemma groupFold_counts (env : GroupEnv) (now : Nat)
    (us : List WxUserLogin) :
    ∀ st : GroupTickState,
      (us.foldl (groupStep env now) st).successCount +
        (us.foldl (groupStep env now) st).errorCount =
        st.successCount + st.errorCount + us.length := by
  induction us with
  | nil => intro st; simp
  | cons u t ih =>
      intro st
      rw [List.foldl_cons]
      have h1 := groupStep_counts env now st u
      have h2 := ih (groupStep env now st u)
      rw [h2, h1]
      simp [List.length_cons]
      omega

/-- C6.  Both batch ticks return an error exactly when the intake query
fails; when the intake succeeds, every session of the intake set is
processed and tallied (the tallies sum to the intake size), no matter
which per-session external or persistence failures occur. -/
theorem tick_partial_batch_resilience (lenv : LoginEnv) (genv : GroupEnv)
    (store : Store) (now : Nat) :
    (CheckLoginStatusTick lenv true store now = .error () ∧
      CheckLoginStatusTick lenv false store now =
        .ok (loginTickRun lenv store now) ∧
      (loginTickRun lenv store now).successCount +
        (loginTickRun lenv store now).errorCount +
        (loginTickRun lenv store now).reloginCount =
        (GetActiveUsers store.users).length) ∧
    (SyncGroupsForAllUsersTick genv true store now = .error () ∧
      SyncGroupsForAllUsersTick genv false store now =
        .ok (groupTickRun genv store now) ∧
      (groupTickRun genv store now).successCount +
        (groupTickRun genv store now).errorCount =
        (GetInitializedUsers store.users).length) := by
  refine ⟨⟨rfl, rfl, ?_⟩, ⟨rfl, rfl, ?_⟩⟩
  · unfold loginTickRun
    rw [loginFold_counts lenv now (GetActiveUsers store.users) ⟨store, 0, 0, 0⟩]
    dsimp only
    omega
  · unfold groupTickRun
    rw [groupFold_counts genv now (GetInitializedUsers store.users) ⟨store, 0, 0⟩]
    dsimp only
    omega

/-- Witness for C5's amended theorem at a concrete input. -/
theorem initIntake_characterization_witness :
    (⟨1, 7, "t", "wx", "n", 0, 0, 0, 1, 0, 0, 0, 0⟩ : WxUserLogin) ∈
      GetUninitializedUsers [⟨1, 7, "t", "wx", "n", 0, 0, 0, 1, 0, 0, 0, 0⟩] ↔
      (⟨1, 7, "t", "wx", "n", 0, 0, 0, 1, 0, 0, 0, 0⟩ : WxUserLogin) ∈
        [(⟨1, 7, "t", "wx", "n", 0, 0, 0, 1, 0, 0, 0, 0⟩ : WxUserLogin)] ∧
      (0 : Int) = 0 ∧ (1 : Int) = 1 :=
  initIntake_characterization _ _

/-! ## C10: schedulers never move a session's lifecycle backward -/

lemma forall2_upd_self (upd : WxUserLogin → WxUserLogin)
    (l : List WxUserLogin) :
    List.Forall₂ (fun o n => n = o ∨ n = upd o) l l :=
  List.forall₂_same.mpr (fun _ _ => Or.inl rfl)

lemma forall2_upd_mapIf (upd : WxUserLogin → WxUserLogin)
    (c : WxUserLogin → Bool) (l : List WxUserLogin) :
    List.Forall₂ (fun o n => n = o ∨ n = upd o) l
      (l.map (fun u => if c u then upd u else u)) := by
  rw [List.forall₂_map_right_iff]
  refine List.forall₂_same.mpr (fun x _ => ?_)
  by_cases h : c x
  · rw [if_pos h]; exact Or.inr rfl
  · rw [if_neg h]; exact Or.inl rfl

lemma forall2_upd_trans (upd : WxUserLogin → WxUserLogin)
    (hupd : ∀ a, upd (upd a) = upd a) :
    ∀ {l1 l2 l3 : List WxUserLogin},
      List.Forall₂ (fun o n => n = o ∨ n = upd o) l1 l2 →
      List.Forall₂ (fun o n => n = o ∨ n = upd o) l2 l3 →
      List.Forall₂ (fun o n => n = o ∨ n = upd o) l1 l3 := by
  intro l1 l2 l3 h12
  induction h12 generalizing l3 with
  | nil => intro h23; cases h23; exact List.Forall₂.nil
  | @cons o n t1 t2 r12 t12 ih =>
      intro h23
      cases h23 with
      | cons r23 t23 =>
          refine List.Forall₂.cons ?_ (ih t23)
          rcases r12 with rfl | rfl
          · exact r23
          · rcases r23 with rfl | rfl
            · exact Or.inr rfl
            · exact Or.inr (hupd o)

lemma forall2_upd_messageBot (upd : WxUserLogin → WxUserLogin)
    (hupd : ∀ o, (upd o).isMessageBot = o.isMessageBot) :
    ∀ {l l' : List WxUserLogin},
      List.Forall₂ (fun o n => n = o ∨ n = upd o) l l' →
      l'.map (fun u => u.isMessageBot) = l.map (fun u => u.isMessageBot) := by
  intro l l' h
  induction h with
  | nil => rfl
  | @cons o n t1 t2 r t ih =>
      rw [List.map_cons, List.map_cons, ih]
      rcases r with rfl | rfl
      · rfl
      · rw [hupd o]

lemma loginStep_store_rel (env : LoginEnv) (now : Nat) (st : LoginTickState)
    (user : WxUserLogin) :
    List.Forall₂
      (fun o n => n = o ∨ n = { o with status := 3, updateTime := now })
      st.store.users (loginStep env now st user).store.users ∧
    (loginStep env now st user).store.groups = st.store.groups := by
  unfold loginStep
  split
  · exact ⟨forall2_upd_self _ _, rfl⟩
  · split
    · exact ⟨forall2_upd_self _ _, rfl⟩
    · split
      · split
        · exact ⟨forall2_upd_self _ _, rfl⟩
        · exact ⟨forall2_upd_mapIf _ _ _, rfl⟩
      · exact ⟨forall2_upd_self _ _, rfl⟩

lemma loginFold_store_rel (env : LoginEnv) (now : Nat)
    (us : List WxUserLogin) :
    ∀ st : LoginTickState,
      List.Forall₂
        (fun o n => n = o ∨ n = { o with status := 3, updateTime := now })
        st.store.users (us.foldl (loginStep env now) st).store.users ∧
      (us.foldl (loginStep env now) st).store.groups = st.store.groups := by
  induction us with
  | nil => intro st; exact ⟨forall2_upd_self _ _, rfl⟩
  | cons u t ih =>
      intro st
      rw [List.foldl_cons]
      have h1 := loginStep_store_rel env now st u
      have h2 := ih (loginStep env now st u)
      exact ⟨forall2_upd_trans
        (fun o => { o with status := 3, updateTime := now })
        (fun a => rfl) h1.1 h2.1, h2.2.trans h1.2⟩

lemma groupStep_users_eq (env : GroupEnv) (now : Nat) (st : GroupTickState)
    (user : WxUserLogin) :
    (groupStep env now st user).store.users = st.store.users := by
  unfold groupStep
  split
  · rfl
  · rfl

lemma groupFold_users_eq (env : GroupEnv) (now : Nat)
    (us : List WxUserLogin) :
    ∀ st : GroupTickState,
      (us.foldl (groupStep env now) st).store.users = st.store.users := by
  induction us with
  | nil => intro st; rfl
  | cons u t ih =>
      intro st
      rw [List.foldl_cons, ih (groupStep env now st u),
        groupStep_users_eq env now st u]

lemma initProcessUser_users_rel (env : InitEnv) (now : Nat) (store : Store)
    (user : WxUserLogin) :
    ∀ s1, initProcessUser env now store user = .ok s1 →
      List.Forall₂
        (fun o n => n = o ∨ n = { o with isInitialized := 1, updateTime := now })
        store.users s1.users := by
  intro s1 h
  unfold initProcessUser at h
  revert h
  split
  · intro h; cases h
  · split
    · intro h; cases h
    · split
      · split
        · intro h; cases h
        · intro h
          cases h
          exact forall2_upd_self _ _
      · split
        · intro h; cases h
        · split
          · intro h; cases h
          · split
            · intro h; cases h
            · intro h
              cases h
              exact forall2_upd_mapIf _ _ _

lemma initFold_users_rel (env : InitEnv) (now : Nat)
    (us : List WxUserLogin) :
    ∀ store : Store,
      List.Forall₂
        (fun o n => n = o ∨ n = { o with isInitialized := 1, updateTime := now })
        store.users
        ((us.foldl (fun s u => match initProcessUser env now s u with
                               | .error _ => s
                               | .ok s1 => s1) store)).users := by
  induction us with
  | nil => intro store; exact forall2_upd_self _ _
  | cons u t ih =>
      intro store
      rw [List.foldl_cons]
      have hstep : List.Forall₂
          (fun o n => n = o ∨ n = { o with isInitialized := 1, updateTime := now })
          store.users
          (match initProcessUser env now store u with
           | .error _ => store
           | .ok s1 => s1).users := by
        cases hres : initProcessUser env now store u with
        | error e => exact forall2_upd_self _ _
        | ok s1 => exact initProcessUser_users_rel env now store u s1 hres
      exact forall2_upd_trans
        (fun o => { o with isInitialized := 1, updateTime := now })
        (fun a => rfl) hstep
        (ih (match initProcessUser env now store u with
             | .error _ => store
             | .ok s1 => s1))

/-- C10.  No scheduler tick moves a session's lifecycle backward: the
login-status tick rewrites a session row only to set `status := 3` (never
back to normal), the group-sync tick never touches session rows at all,
and the initialization tick rewrites a session row only to set
`isInitialized := 1` (never back to 0); none of them changes
`isMessageBot`. -/
theorem schedulers_no_backward_transition (lenv : LoginEnv)
    (genv : GroupEnv) (ienv : InitEnv) (store : Store) (now : Nat) :
    (List.Forall₂
        (fun o n => n = o ∨ n = { o with status := 3, updateTime := now })
        store.users (loginTickRun lenv store now).store.users ∧
      (loginTickRun lenv store now).store.users.map (fun u => u.isMessageBot) =
        store.users.map (fun u => u.isMessageBot)) ∧
    (groupTickRun genv store now).store.users = store.users ∧
    (List.Forall₂
        (fun o n => n = o ∨ n = { o with isInitialized := 1, updateTime := now })
        store.users (initTickRun ienv store now).users ∧
      (initTickRun ienv store now).users.map (fun u => u.isMessageBot) =
        store.users.map (fun u => u.isMessageBot)) := by
  have hlogin := loginFold_store_rel lenv now (GetActiveUsers store.users)
    ⟨store, 0, 0, 0⟩
  have hinit := initFold_users_rel ienv now (GetUninitializedUsers store.users)
    store
  refine ⟨⟨hlogin.1, forall2_upd_messageBot
      (fun o => { o with status := 3, updateTime := now })
      (fun o => rfl) hlogin.1⟩,
    groupFold_users_eq genv now (GetInitializedUsers store.users) ⟨store, 0, 0⟩,
    hinit, forall2_upd_messageBot
      (fun o => { o with isInitialized := 1, updateTime := now })
      (fun o => rfl) hinit⟩

/-! ## C3: the login-status relogin transition -/

lemma getUserById_props (db : List WxUserLogin) (uid : Nat)
    (u : WxUserLogin) (h : getUserById db uid = some u) :
    u ∈ db ∧ u.id = uid := by
  refine ⟨List.mem_of_find?_eq_some h, ?_⟩
  have := List.find?_some h
  simpa using this

lemma getUserById_of_nodup (db : List WxUserLogin) (u : WxUserLogin)
    (hmem : u ∈ db) (hids : (db.map (fun x => x.id)).Nodup) :
    getUserById db u.id = some u := by
  induction db with
  | nil => cases hmem
  | cons a t ih =>
      rw [List.map_cons, List.nodup_cons] at hids
      rcases List.mem_cons.mp hmem with rfl | hmem'
      · unfold getUserById
        rw [List.find?_cons_of_pos _ (by simp)]
      · unfold getUserById
        have hne : (a.id == u.id) = false := by
          refine beq_eq_false_iff_ne.mpr (fun heq => ?_)
          exact hids.1 (heq ▸ List.mem_map_of_mem (fun x => x.id) hmem')
        rw [List.find?_cons_of_neg _ (by simp [hne])]
        exact ih hmem' hids.2

lemma getUserById_updateStatus (db : List WxUserLogin) (i : Nat) (s : Int)
    (now : Nat) (uid : Nat) :
    getUserById (UpdateUserStatus db i s now) uid =
      (getUserById db uid).map
        (fun u => if u.id == i then { u with status := s, updateTime := now }
                  else u) := by
  unfold getUserById UpdateUserStatus
  rw [List.find?_map]
  refine congrArg (Option.map _)
    (congrArg (fun p => List.find? p db) (funext fun u => ?_))
  show ((if u.id == i then { u with status := s, updateTime := now }
         else u).id == uid) = (u.id == uid)
  by_cases h : (u.id == i) = true
  · rw [if_pos h]
  · rw [if_neg h]

lemma loginStep_getUser_stable (env : LoginEnv) (now : Nat)
    (st : LoginTickState) (v : WxUserLogin) (uid : Nat)
    (hne : v.id ≠ uid) :
    getUserById (loginStep env now st v).store.users uid =
      getUserById st.store.users uid := by
  unfold loginStep
  split
  · rfl
  · split
    · rfl
    · split
      · split
        · rfl
        · show getUserById (UpdateUserStatus st.store.users v.id 3 now) uid =
            getUserById st.store.users uid
          rw [getUserById_updateStatus]
          cases hget : getUserById st.store.users uid with
          | none => rfl
          | some u0 =>
              have hu0 := getUserById_props _ _ _ hget
              have : (u0.id == v.id) = false :=
                beq_eq_false_iff_ne.mpr (fun heq => hne (heq ▸ hu0.2))
              simp only [Option.map_some']
              rw [if_neg (by simp [this])]
      · rfl

lemma loginFold_getUser_stable (env : LoginEnv) (now : Nat)
    (us : List WxUserLogin) (uid : Nat)
    (h : ∀ v ∈ us, v.id ≠ uid) :
    ∀ st : LoginTickState,
      getUserById (us.foldl (loginStep env now) st).store.users uid =
        getUserById st.store.users uid := by
  induction us with
  | nil => intro st; rfl
  | cons v t ih =>
      intro st
      rw [List.foldl_cons]
      rw [ih (fun w hw => h w (List.mem_cons_of_mem v hw))
        (loginStep env now st v)]
      exact loginStep_getUser_stable env now st v uid
        (h v (List.mem_cons_self v t))

lemma loginStep_on_user (env : LoginEnv) (now : Nat) (st : LoginTickState)
    (u : WxUserLogin) (robot : WxRobotConfig)
    (resp : CheckCanSetAliasResponse)
    (hrobot : env.getRobot u.robotId = some robot)
    (hwire : env.aliasWire robot.address u.token = some resp) :
    (resp.code = 300 → env.updateFails u.id = false →
      loginStep env now st u =
        { st with
          store := { st.store with
                     users := UpdateUserStatus st.store.users u.id 3 now },
          reloginCount := st.reloginCount + 1 }) ∧
    (resp.code = 200 →
      loginStep env now st u = { st with successCount := st.successCount + 1 }) := by
  unfold loginStep
  rw [hrobot]
  dsimp only
  unfold clientCheckCanSetAlias
  rw [hwire]
  dsimp only
  constructor
  · intro h300 hupd
    simp [h300, hupd]
  · intro h200
    simp [h200]

/-- C3.  For a session in the login-status intake (`status == 1`), with its
robot resolved and the `/login/CheckCanSetAlias` wire answering, one tick
sets the session's status to 3 (needs re-login) exactly when the external
code is 300 (provided the status write itself succeeds); when the code is
200 the session row is left unchanged. -/
theorem loginTick_relogin_transition (env : LoginEnv) (store : Store)
    (now : Nat) (u : WxUserLogin) (robot : WxRobotConfig)
    (resp : CheckCanSetAliasResponse)
    (hmem : u ∈ GetActiveUsers store.users)
    (hids : (store.users.map (fun x => x.id)).Nodup)
    (hrobot : env.getRobot u.robotId = some robot)
    (hwire : env.aliasWire robot.address u.token = some resp) :
    (resp.code = 300 → env.updateFails u.id = false →
      getUserById (loginTickRun env store now).store.users u.id =
        some { u with status := 3, updateTime := now }) ∧
    (resp.code = 200 →
      getUserById (loginTickRun env store now).store.users u.id = some u) := by
  obtain ⟨s, t, hst⟩ := List.append_of_mem hmem
  have hsub : (GetActiveUsers store.users).Sublist store.users :=
    List.filter_sublist _
  have hintids : ((GetActiveUsers store.users).map (fun x => x.id)).Nodup :=
    hids.sublist (hsub.map _)
  rw [hst, List.map_append, List.map_cons, List.nodup_append] at hintids
  obtain ⟨hs_nodup, hcons_nodup, hdisj⟩ := hintids
  have hconsnodup := List.nodup_cons.mp hcons_nodup
  have hsne : ∀ v ∈ s, v.id ≠ u.id := fun v hv heq =>
    hdisj (List.mem_map_of_mem _ hv)
      (by rw [heq]; exact List.mem_cons_self _ _)
  have htne : ∀ v ∈ t, v.id ≠ u.id := fun v hv heq =>
    hconsnodup.1 (heq ▸ List.mem_map_of_mem (fun x => x.id) hv)
  have hu_mem : u ∈ store.users := List.mem_of_mem_filter hmem
  have hu_get : getUserById store.users u.id = some u :=
    getUserById_of_nodup _ _ hu_mem hids
  have hrun : loginTickRun env store now =
      t.foldl (loginStep env now)
        (loginStep env now
          (s.foldl (loginStep env now) ⟨store, 0, 0, 0⟩) u) := by
    unfold loginTickRun
    rw [hst, List.foldl_append, List.foldl_cons]
  have hstable_s : getUserById
      (s.foldl (loginStep env now) ⟨store, 0, 0, 0⟩).store.users u.id =
      some u := by
    rw [loginFold_getUser_stable env now s u.id hsne ⟨store, 0, 0, 0⟩]
    exact hu_get
  have hstep := loginStep_on_user env now
    (s.foldl (loginStep env now) ⟨store, 0, 0, 0⟩) u robot resp hrobot hwire
  constructor
  · intro h300 hupd
    rw [hrun, loginFold_getUser_stable env now t u.id htne, hstep.1 h300 hupd]
    show getUserById
      (UpdateUserStatus
        (s.foldl (loginStep env now) ⟨store, 0, 0, 0⟩).store.users u.id 3 now)
      u.id = _
    rw [getUserById_updateStatus, hstable_s]
    simp
  · intro h200
    rw [hrun, loginFold_getUser_stable env now t u.id htne, hstep.2 h200]
    exact hstable_s

/-- The session of the C3 witness run (status 1 = normal). -/
def c3User : WxUserLogin := ⟨1, 7, "tokA", "wxA", "n", 0, 0, 0, 1, 1, 0, 0, 0⟩

/-- The robot of the C3 witness run. -/
def c3Robot : WxRobotConfig := ⟨7, "addr", "k", 1, "", "", 0, 0⟩

/-- C3 witness environment: `/login/CheckCanSetAlias` answers code 300 and
the status write succeeds. -/
def c3Env : LoginEnv :=
  { getRobot := fun i => if i == 7 then some c3Robot else none
    aliasWire := fun _ _ => some ⟨300, "relogin"⟩
    updateFails := fun _ => false }

/-- Witness for C3 at a concrete input: one active session whose
`CheckCanSetAlias` call answers 300. -/
theorem loginTick_relogin_transition_witness :
    (c3User ∈ GetActiveUsers [c3User] ∧
      (([c3User] : List WxUserLogin).map (fun x => x.id)).Nodup ∧
      c3Env.getRobot c3User.robotId = some c3Robot ∧
      c3Env.aliasWire c3Robot.address c3User.token = some ⟨300, "relogin"⟩) ∧
    (((300 : Int) = 300 → c3Env.updateFails c3User.id = false →
        getUserById (loginTickRun c3Env ⟨[c3User], []⟩ 5).store.users
          c3User.id = some { c3User with status := 3, updateTime := 5 }) ∧
      ((300 : Int) = 200 →
        getUserById (loginTickRun c3Env ⟨[c3User], []⟩ 5).store.users
          c3User.id = some c3User)) := by
  refine ⟨⟨by decide, by decide, rfl, rfl⟩, ?_⟩
  exact loginTick_relogin_transition c3Env ⟨[c3User], []⟩ 5 c3User c3Robot
    ⟨300, "relogin"⟩ (by decide) (by decide) rfl rfl

/-! ## C1: group-sync convergence -/

/-- Primary keys of the group table. -/
def groupIds (db : List WxGroup) : List Nat := db.map (fun g => g.id)

/-- Natural keys `(wx_id, group_id)` of the group table. -/
def groupKeys (db : List WxGroup) : List (String × String) :=
  db.map (fun g => (g.wxId, g.groupId))

/-- Well-formedness of the group table: primary keys and natural keys are
unique, as the schema's primary key and the upsert discipline maintain. -/
def GroupDBWF (db : List WxGroup) : Prop :=
  (groupIds db).Nodup ∧ (groupKeys db).Nodup

/-- Some persisted row carries the natural key `(w, gid)`. -/
def hasGroupKey (db : List WxGroup) (w gid : String) : Prop :=
  ∃ r ∈ db, r.wxId = w ∧ r.groupId = gid

lemma groupkey_beq_iff (r g : WxGroup) :
    ((r.wxId == g.wxId && r.groupId == g.groupId) = true) ↔
      (r.wxId = g.wxId ∧ r.groupId = g.groupId) := by
  simp [Bool.and_eq_true]

lemma saveOrUpdate_eq_insert (db : List WxGroup) (g : WxGroup) (now : Nat)
    (hfind : db.find?
      (fun r => r.wxId == g.wxId && r.groupId == g.groupId) = none) :
    SaveOrUpdateGroup db g now =
      db ++ [{ g with
               id := freshGroupId db,
               createTime := now,
               updateTime := now }] := by
  unfold SaveOrUpdateGroup
  rw [hfind]

lemma saveOrUpdate_eq_same (db : List WxGroup) (g ex : WxGroup) (now : Nat)
    (hfind : db.find?
      (fun r => r.wxId == g.wxId && r.groupId == g.groupId) = some ex)
    (hnick : ex.groupNickName = g.groupNickName) :
    SaveOrUpdateGroup db g now = db := by
  unfold SaveOrUpdateGroup
  rw [hfind]
  dsimp only
  rw [if_pos (beq_iff_eq.mpr hnick)]

lemma saveOrUpdate_eq_update (db : List WxGroup) (g ex : WxGroup) (now : Nat)
    (hfind : db.find?
      (fun r => r.wxId == g.wxId && r.groupId == g.groupId) = some ex)
    (hnick : ex.groupNickName ≠ g.groupNickName) :
    SaveOrUpdateGroup db g now =
      db.map (fun r => if r.id == ex.id then
                         { ex with
                           groupNickName := g.groupNickName,
                           updateTime := now }
                       else r) := by
  unfold SaveOrUpdateGroup
  rw [hfind]
  dsimp only
  rw [if_neg (by simpa using hnick)]

lemma find?_group_some (db : List WxGroup) (g ex : WxGroup)
    (hfind : db.find?
      (fun r => r.wxId == g.wxId && r.groupId == g.groupId) = some ex) :
    ex ∈ db ∧ ex.wxId = g.wxId ∧ ex.groupId = g.groupId := by
  have hp := List.find?_some hfind
  exact ⟨List.mem_of_find?_eq_some hfind, (groupkey_beq_iff ex g).mp hp⟩

lemma find?_group_none (db : List WxGroup) (g : WxGroup)
    (hfind : db.find?
      (fun r => r.wxId == g.wxId && r.groupId == g.groupId) = none) :
    ∀ r ∈ db, ¬(r.wxId = g.wxId ∧ r.groupId = g.groupId) := by
  intro r hr hcontra
  have := List.find?_eq_none.mp hfind r hr
  exact this ((groupkey_beq_iff r g).mpr hcontra)

lemma updateRow_id_eq (ex : WxGroup) (g : WxGroup) (now : Nat)
    (r : WxGroup) :
    (if r.id == ex.id then
       { ex with
         groupNickName := g.groupNickName,
         updateTime := now }
     else r).id = r.id := by
  by_cases h : (r.id == ex.id) = true
  · rw [if_pos h]
    have : r.id = ex.id := by simpa using h
    rw [this]
  · rw [if_neg h]

lemma updateRow_key_eq (db : List WxGroup) (hids : (groupIds db).Nodup)
    (ex : WxGroup) (hex : ex ∈ db) (g : WxGroup) (now : Nat)
    (r : WxGroup) (hr : r ∈ db) :
    ((if r.id == ex.id then
        { ex with
          groupNickName := g.groupNickName,
          updateTime := now }
      else r).wxId,
     (if r.id == ex.id then
        { ex with
          groupNickName := g.groupNickName,
          updateTime := now }
      else r).groupId) = (r.wxId, r.groupId) := by
  by_cases h : (r.id == ex.id) = true
  · have hre : r = ex :=
      List.inj_on_of_nodup_map hids hr hex (by simpa using h)
    rw [if_pos h, hre]
  · rw [if_neg h]

lemma saveOrUpdate_wf (db : List WxGroup) (g : WxGroup) (now : Nat)
    (hwf : GroupDBWF db) : GroupDBWF (SaveOrUpdateGroup db g now) := by
  cases hfind : db.find?
      (fun r => r.wxId == g.wxId && r.groupId == g.groupId) with
  | none =>
      rw [saveOrUpdate_eq_insert db g now hfind]
      constructor
      · show (groupIds (db ++ [_])).Nodup
        unfold groupIds
        rw [List.map_append, List.nodup_append]
        refine ⟨hwf.1, List.nodup_singleton _, ?_⟩
        intro a ha hb
        rw [List.map_singleton, List.mem_singleton] at hb
        obtain ⟨r, hr, hrid⟩ := List.mem_map.mp ha
        exact absurd (hrid.trans hb)
          (Nat.ne_of_lt (freshGroupId_gt db r hr))
      · show (groupKeys (db ++ [_])).Nodup
        unfold groupKeys
        rw [List.map_append, List.nodup_append]
        refine ⟨hwf.2, List.nodup_singleton _, ?_⟩
        intro a ha hb
        rw [List.map_singleton, List.mem_singleton] at hb
        obtain ⟨r, hr, hrkey⟩ := List.mem_map.mp ha
        subst hb
        rw [Prod.mk.injEq] at hrkey
        exact find?_group_none db g hfind r hr ⟨hrkey.1, hrkey.2⟩
  | some ex =>
      by_cases hnick : ex.groupNickName = g.groupNickName
      · rw [saveOrUpdate_eq_same db g ex now hfind hnick]
        exact hwf
      · rw [saveOrUpdate_eq_update db g ex now hfind hnick]
        have hex := (find?_group_some db g ex hfind).1
        constructor
        · show (groupIds (db.map _)).Nodup
          unfold groupIds
          rw [List.map_map]
          have : db.map ((fun r => r.id) ∘
              (fun r => if r.id == ex.id then
                 { ex with
                   groupNickName := g.groupNickName,
                   updateTime := now }
               else r)) = db.map (fun r => r.id) :=
            List.map_congr_left (fun r _ => updateRow_id_eq ex g now r)
          rw [this]
          exact hwf.1
        · show (groupKeys (db.map _)).Nodup
          unfold groupKeys
          rw [List.map_map]
          have : db.map ((fun r => (r.wxId, r.groupId)) ∘
              (fun r => if r.id == ex.id then
                 { ex with
                   groupNickName := g.groupNickName,
                   updateTime := now }
               else r)) = db.map (fun r => (r.wxId, r.groupId)) :=
            List.map_congr_left
              (fun r hr => updateRow_key_eq db hwf.1 ex hex g now r hr)
          rw [this]
          exact hwf.2

lemma saveOrUpdate_preserves_row (db : List WxGroup) (g : WxGroup)
    (now : Nat) (hwf : GroupDBWF db) (r0 : WxGroup) (h0 : r0 ∈ db) :
    ∃ r1 ∈ SaveOrUpdateGroup db g now,
      r1.wxId = r0.wxId ∧ r1.groupId = r0.groupId ∧ r1.id = r0.id ∧
      r1.createTime = r0.createTime := by
  cases hfind : db.find?
      (fun r => r.wxId == g.wxId && r.groupId == g.groupId) with
  | none =>
      rw [saveOrUpdate_eq_insert db g now hfind]
      exact ⟨r0, List.mem_append_left _ h0, rfl, rfl, rfl, rfl⟩
  | some ex =>
      by_cases hnick : ex.groupNickName = g.groupNickName
      · rw [saveOrUpdate_eq_same db g ex now hfind hnick]
        exact ⟨r0, h0, rfl, rfl, rfl, rfl⟩
      · rw [saveOrUpdate_eq_update db g ex now hfind hnick]
        have hex := (find?_group_some db g ex hfind).1
        refine ⟨(fun r => if r.id == ex.id then
                   { ex with
                     groupNickName := g.groupNickName,
                     updateTime := now }
                 else r) r0,
          List.mem_map_of_mem _ h0, ?_⟩
        dsimp only
        by_cases h : (r0.id == ex.id) = true
        · have hre : r0 = ex :=
            List.inj_on_of_nodup_map hwf.1 h0 hex (by simpa using h)
          subst hre
          rw [if_pos h]
          exact ⟨rfl, rfl, rfl, rfl⟩
        · rw [if_neg h]
          exact ⟨rfl, rfl, rfl, rfl⟩

lemma saveOrUpdate_hasKey_mono (db : List WxGroup) (g : WxGroup)
    (now : Nat) (hwf : GroupDBWF db) (w gid : String)
    (h : hasGroupKey db w gid) :
    hasGroupKey (SaveOrUpdateGroup db g now) w gid := by
  obtain ⟨r, hr, hrw, hrg⟩ := h
  obtain ⟨r1, hr1, h1w, h1g, _, _⟩ :=
    saveOrUpdate_preserves_row db g now hwf r hr
  exact ⟨r1, hr1, h1w.trans hrw, h1g.trans hrg⟩

lemma saveOrUpdate_hasKey_self (db : List WxGroup) (g : WxGroup)
    (now : Nat) :
    hasGroupKey (SaveOrUpdateGroup db g now) g.wxId g.groupId := by
  cases hfind : db.find?
      (fun r => r.wxId == g.wxId && r.groupId == g.groupId) with
  | none =>
      rw [saveOrUpdate_eq_insert db g now hfind]
      exact ⟨_, List.mem_append_right _ (List.mem_singleton_self _),
        rfl, rfl⟩
  | some ex =>
      obtain ⟨hexmem, hexw, hexg⟩ := find?_group_some db g ex hfind
      by_cases hnick : ex.groupNickName = g.groupNickName
      · rw [saveOrUpdate_eq_same db g ex now hfind hnick]
        exact ⟨ex, hexmem, hexw, hexg⟩
      · rw [saveOrUpdate_eq_update db g ex now hfind hnick]
        refine ⟨(fun r => if r.id == ex.id then
                   { ex with
                     groupNickName := g.groupNickName,
                     updateTime := now }
                 else r) ex,
          List.mem_map_of_mem _ hexmem, ?_⟩
        dsimp only
        rw [if_pos (by simp)]
        exact ⟨hexw, hexg⟩

lemma upsertGroups_cons (db : List WxGroup) (w : String) (e : GroupEntry)
    (rest : List GroupEntry) (now : Nat) :
    upsertGroups db w (e :: rest) now =
      upsertGroups (SaveOrUpdateGroup db (mkSyncGroup w e) now) w rest now :=
  rfl

lemma upsertGroups_wf (w : String) (now : Nat) :
    ∀ (gl : List GroupEntry) (db : List WxGroup), GroupDBWF db →
      GroupDBWF (upsertGroups db w gl now) := by
  intro gl
  induction gl with
  | nil => intro db hwf; exact hwf
  | cons e rest ih =>
      intro db hwf
      rw [upsertGroups_cons]
      exact ih _ (saveOrUpdate_wf db (mkSyncGroup w e) now hwf)

lemma upsertGroups_preserves_row (w : String) (now : Nat) :
    ∀ (gl : List GroupEntry) (db : List WxGroup), GroupDBWF db →
      ∀ r0 ∈ db, ∃ r1 ∈ upsertGroups db w gl now,
        r1.wxId = r0.wxId ∧ r1.groupId = r0.groupId ∧ r1.id = r0.id ∧
        r1.createTime = r0.createTime := by
  intro gl
  induction gl with
  | nil => intro db _ r0 h0; exact ⟨r0, h0, rfl, rfl, rfl, rfl⟩
  | cons e rest ih =>
      intro db hwf r0 h0
      rw [upsertGroups_cons]
      obtain ⟨rm, hrm, hw1, hg1, hi1, hc1⟩ :=
        saveOrUpdate_preserves_row db (mkSyncGroup w e) now hwf r0 h0
      obtain ⟨r1, hr1, hw2, hg2, hi2, hc2⟩ :=
        ih _ (saveOrUpdate_wf db (mkSyncGroup w e) now hwf) rm hrm
      exact ⟨r1, hr1, hw2.trans hw1, hg2.trans hg1, hi2.trans hi1,
        hc2.trans hc1⟩

lemma upsertGroups_hasKey_mono (w : String) (now : Nat) :
    ∀ (gl : List GroupEntry) (db : List WxGroup), GroupDBWF db →
      ∀ w' gid, hasGroupKey db w' gid →
        hasGroupKey (upsertGroups db w gl now) w' gid := by
  intro gl
  induction gl with
  | nil => intro db _ w' gid h; exact h
  | cons e rest ih =>
      intro db hwf w' gid h
      rw [upsertGroups_cons]
      exact ih _ (saveOrUpdate_wf db (mkSyncGroup w e) now hwf) w' gid
        (saveOrUpdate_hasKey_mono db (mkSyncGroup w e) now hwf w' gid h)

lemma upsertGroups_key_of_mem (w : String) (now : Nat) :
    ∀ (gl : List GroupEntry) (db : List WxGroup), GroupDBWF db →
      ∀ e ∈ gl, hasGroupKey (upsertGroups db w gl now) w e.userNameStr := by
  intro gl
  induction gl with
  | nil => intro db _ e he; cases he
  | cons e0 rest ih =>
      intro db hwf e he
      rw [upsertGroups_cons]
      rcases List.mem_cons.mp he with rfl | he'
      · exact upsertGroups_hasKey_mono w now rest _
          (saveOrUpdate_wf db (mkSyncGroup w e) now hwf) w e.userNameStr
          (saveOrUpdate_hasKey_self db (mkSyncGroup w e) now)
      · exact ih _ (saveOrUpdate_wf db (mkSyncGroup w e0) now hwf) e he'

lemma mem_deleteGroups (db : List WxGroup) (w : String)
    (ids : List String) (r : WxGroup) :
    r ∈ DeleteGroupsByWxIDNotInList db w ids ↔
      r ∈ db ∧ (r.wxId = w → r.groupId ∈ ids) := by
  unfold DeleteGroupsByWxIDNotInList
  by_cases hempty : ids.isEmpty
  · rw [if_pos hempty]
    have : ids = [] := List.isEmpty_iff.mp hempty
    subst this
    rw [List.mem_filter]
    simp
  · rw [if_neg hempty]
    rw [List.mem_filter]
    constructor
    · rintro ⟨hmem, hcond⟩
      refine ⟨hmem, fun hwx => ?_⟩
      by_contra hnot
      simp [hwx, hnot] at hcond
    · rintro ⟨hmem, hcond⟩
      refine ⟨hmem, ?_⟩
      by_cases hwx : r.wxId = w
      · simp [hwx, hcond hwx]
      · simp [hwx]

lemma wf_of_sublist (l' l : List WxGroup) (hsub : l'.Sublist l)
    (hwf : GroupDBWF l) : GroupDBWF l' :=
  ⟨hwf.1.sublist (hsub.map _), hwf.2.sublist (hsub.map _)⟩

lemma deleteGroups_wf (db : List WxGroup) (w : String) (ids : List String)
    (hwf : GroupDBWF db) :
    GroupDBWF (DeleteGroupsByWxIDNotInList db w ids) := by
  unfold DeleteGroupsByWxIDNotInList
  by_cases hempty : ids.isEmpty
  · rw [if_pos hempty]
    exact wf_of_sublist _ _ (List.filter_sublist _) hwf
  · rw [if_neg hempty]
    exact wf_of_sublist _ _ (List.filter_sublist _) hwf

lemma upsertGroupsE_all_ok (saveFails : WxGroup → Bool) (w : String)
    (now : Nat) (hsave : ∀ g, saveFails g = false) :
    ∀ (gl : List GroupEntry) (db : List WxGroup),
      upsertGroupsE saveFails w now db gl = .ok (upsertGroups db w gl now) := by
  intro gl
  induction gl with
  | nil => intro db; rfl
  | cons e rest ih =>
      intro db
      unfold upsertGroupsE
      rw [hsave (mkSyncGroup w e)]
      rw [if_neg Bool.false_ne_true]
      rw [upsertGroups_cons]
      exact ih (SaveOrUpdateGroup db (mkSyncGroup w e) now)

/-- C1.  One successful group-sync pass for a session `X` (robot resolved,
external `/group/GroupList` answering code 200 with group set `G`, storage
healthy) runs `processGroupSync`, after which the persisted group rows for
`X` are exactly those with `groupId ∈ G`: every listed group has a row
(upserted on the `(wxId, groupId)` key), rows that already existed keep
their `id` and `createTime`, groups absent from `G` are deleted, and an
empty `G` wipes every group row of `X`.  Key uniqueness is preserved. -/
theorem syncGroupsForUser_converges (env : GroupEnv) (gdb : List WxGroup)
    (user : WxUserLogin) (now : Nat) (robot : WxRobotConfig)
    (resp : GroupListResponse)
    (hwf : GroupDBWF gdb)
    (hrobot : env.getRobot user.robotId = some robot)
    (hwire : env.groupWire robot.address user.token = some resp)
    (hcode : resp.code = 200)
    (hsave : ∀ g, env.saveGroupFails g = false)
    (hdel : env.deleteGroupsFails user.wxId = false) :
    syncGroupsForUser env gdb user now =
      .ok (processGroupSync gdb user.wxId resp.groupList now) ∧
    GroupDBWF (processGroupSync gdb user.wxId resp.groupList now) ∧
    (∀ r ∈ processGroupSync gdb user.wxId resp.groupList now,
      r.wxId = user.wxId →
        r.groupId ∈ resp.groupList.map (fun e => e.userNameStr)) ∧
    (∀ e ∈ resp.groupList,
      ∃ r ∈ processGroupSync gdb user.wxId resp.groupList now,
        r.wxId = user.wxId ∧ r.groupId = e.userNameStr) ∧
    (∀ r0 ∈ gdb, r0.wxId = user.wxId →
      r0.groupId ∈ resp.groupList.map (fun e => e.userNameStr) →
      ∃ r1 ∈ processGroupSync gdb user.wxId resp.groupList now,
        r1.wxId = r0.wxId ∧ r1.groupId = r0.groupId ∧ r1.id = r0.id ∧
        r1.createTime = r0.createTime) ∧
    (resp.groupList = [] →
      ∀ r ∈ processGroupSync gdb user.wxId resp.groupList now,
        r.wxId ≠ user.wxId) := by
  have hupserted_wf : GroupDBWF (upsertGroups gdb user.wxId resp.groupList now) :=
    upsertGroups_wf user.wxId now resp.groupList gdb hwf
  refine ⟨?_, ?_, ?_, ?_, ?_, ?_⟩
  · unfold syncGroupsForUser
    rw [hrobot]
    dsimp only
    unfold clientGetGroupList
    rw [hwire]
    dsimp only
    rw [hcode]
    norm_num
    rw [if_pos hcode]
    unfold processGroupSyncE
    rw [upsertGroupsE_all_ok env.saveGroupFails user.wxId now hsave
      resp.groupList gdb]
    dsimp only
    rw [hdel, if_neg Bool.false_ne_true]
    rfl
  · exact deleteGroups_wf _ _ _ hupserted_wf
  · intro r hr hrwx
    exact ((mem_deleteGroups _ _ _ r).mp hr).2 hrwx
  · intro e he
    obtain ⟨r, hr, hrw, hrg⟩ :=
      upsertGroups_key_of_mem user.wxId now resp.groupList gdb hwf e he
    refine ⟨r, ?_, hrw, hrg⟩
    unfold processGroupSync
    rw [mem_deleteGroups]
    exact ⟨hr, fun _ => hrg ▸ List.mem_map_of_mem _ he⟩
  · intro r0 h0 h0wx h0keep
    obtain ⟨r1, hr1, hw1, hg1, hi1, hc1⟩ :=
      upsertGroups_preserves_row user.wxId now resp.groupList gdb hwf r0 h0
    refine ⟨r1, ?_, hw1, hg1, hi1, hc1⟩
    unfold processGroupSync
    rw [mem_deleteGroups]
    exact ⟨hr1, fun _ => hg1 ▸ h0keep⟩
  · intro hnil r hr hrwx
    have := ((mem_deleteGroups _ _ _ r).mp hr).2 hrwx
    rw [hnil] at this
    cases this

/-- Persisted groups before the C1 witness run: `{A, B, C}` for session
`"X"` plus one row of an unrelated session. -/
def c1Db : List WxGroup :=
  [⟨1, "X", "A", "ga", 0, 0⟩, ⟨2, "X", "B", "gb", 0, 0⟩,
   ⟨3, "X", "C", "gc", 0, 0⟩, ⟨4, "Y", "A", "ga", 0, 0⟩]

/-- External group list of the C1 witness run: `{B, C, D}` (code 200). -/
def c1Resp : GroupListResponse :=
  ⟨200, [⟨"B", "gb", "o"⟩, ⟨"C", "gc2", "o"⟩, ⟨"D", "gd", "o"⟩], true, 3, "ok"⟩

/-- The session of the C1 witness run. -/
def c1User : WxUserLogin := ⟨1, 7, "tok", "X", "n", 0, 0, 0, 1, 1, 0, 0, 0⟩

/-- The robot of the C1 witness run. -/
def c1Robot : WxRobotConfig := ⟨7, "addr", "k", 1, "", "", 0, 0⟩

/-- C1 witness environment: healthy storage, group list `{B, C, D}`. -/
def c1Env : GroupEnv :=
  { getRobot := fun i => if i == 7 then some c1Robot else none
    groupWire := fun _ _ => some c1Resp
    saveGroupFails := fun _ => false
    deleteGroupsFails := fun _ => false }

/-- Witness for C1 at the concrete input: persisted `{A, B, C}` for `"X"`,
external list `{B, C, D}`. -/
theorem syncGroupsForUser_converges_witness :
    (GroupDBWF c1Db ∧
      c1Env.getRobot c1User.robotId = some c1Robot ∧
      c1Env.groupWire c1Robot.address c1User.token = some c1Resp ∧
      c1Resp.code = 200 ∧
      (∀ g, c1Env.saveGroupFails g = false) ∧
      c1Env.deleteGroupsFails c1User.wxId = false) ∧
    (syncGroupsForUser c1Env c1Db c1User 10 =
        .ok (processGroupSync c1Db c1User.wxId c1Resp.groupList 10) ∧
      GroupDBWF (processGroupSync c1Db c1User.wxId c1Resp.groupList 10) ∧
      (∀ r ∈ processGroupSync c1Db c1User.wxId c1Resp.groupList 10,
        r.wxId = c1User.wxId →
          r.groupId ∈ c1Resp.groupList.map (fun e => e.userNameStr)) ∧
      (∀ e ∈ c1Resp.groupList,
        ∃ r ∈ processGroupSync c1Db c1User.wxId c1Resp.groupList 10,
          r.wxId = c1User.wxId ∧ r.groupId = e.userNameStr) ∧
      (∀ r0 ∈ c1Db, r0.wxId = c1User.wxId →
        r0.groupId ∈ c1Resp.groupList.map (fun e => e.userNameStr) →
        ∃ r1 ∈ processGroupSync c1Db c1User.wxId c1Resp.groupList 10,
          r1.wxId = r0.wxId ∧ r1.groupId = r0.groupId ∧ r1.id = r0.id ∧
          r1.createTime = r0.createTime) ∧
      (c1Resp.groupList = [] →
        ∀ r ∈ processGroupSync c1Db c1User.wxId c1Resp.groupList 10,
          r.wxId ≠ c1User.wxId)) := by
  have hwf : GroupDBWF c1Db := ⟨by decide, by decide⟩
  refine ⟨⟨hwf, rfl, rfl, rfl, fun g => rfl, rfl⟩, ?_⟩
  exact syncGroupsForUser_converges c1Env c1Db c1User 10 c1Robot c1Resp
    hwf rfl rfl rfl (fun g => rfl) rfl
